import Mathlib

/-!
Shallow embedding of the platsch repository (src/libplatsch.c, src/platsch.c,
src/libplatsch.h): a DRM splash-screen engine.  Pure data and algorithms are
translated directly; kernel/libdrm calls (ioctls, mmap, getenv, file reads)
are modelled as explicit environments whose responses are inputs, and their
side effects (open file descriptors, kernel-side dumb buffers and framebuffer
objects) as explicit state threaded through the functions.
-/

set_option maxRecDepth 10000

namespace Platsch

/-- DRM fourcc code, as drm_fourcc.h fourcc_code(a,b,c,d). -/
def fourcc (a b c d : Char) : Nat :=
  a.toNat + b.toNat * 2 ^ 8 + c.toNat * 2 ^ 16 + d.toNat * 2 ^ 24

/-- DRM_FORMAT_RGB565 = fourcc_code('R','G','1','6'). -/
def DRM_FORMAT_RGB565 : Nat := fourcc 'R' 'G' '1' '6'

/-- DRM_FORMAT_XRGB8888 = fourcc_code('X','R','2','4'). -/
def DRM_FORMAT_XRGB8888 : Nat := fourcc 'X' 'R' '2' '4'

/-- drmModeConnection value DRM_MODE_CONNECTED. -/
def DRM_MODE_CONNECTED : Nat := 1

/-- errno constants used by the sources. -/
def ENOENT : Int := 2

def EFAULT : Int := 14

/-- struct platsch_format (libplatsch.c:50, platsch.c:48). -/
structure PlatschFormat where
  format : Nat
  bpp : Nat
  name : String
  deriving Repr, DecidableEq

/-- platsch_formats table (libplatsch.c:56, platsch.c:54); first entry is the
default. -/
def platsch_formats : List PlatschFormat :=
  [⟨DRM_FORMAT_RGB565, 16, "RGB565"⟩,
   ⟨DRM_FORMAT_XRGB8888, 32, "XRGB8888"⟩]

/-- Stand-in for the NULL format pointer of a freshly calloc'd modeset_dev;
every retained record overwrites it before use. -/
def nullFormat : PlatschFormat := ⟨0, 0, ""⟩

/-- drmModeModeInfo, restricted to the fields the program reads
(hdisplay, vdisplay) plus vrefresh so that distinct timings with equal
dimensions stay distinguishable. -/
structure ModeInfo where
  hdisplay : Nat
  vdisplay : Nat
  vrefresh : Nat
  deriving Repr, DecidableEq

/-- struct modeset_dev (libplatsch.c:61, platsch.c:97).  The mmap'd pixel
memory is modelled as the list of bytes it currently holds. -/
structure ModesetDev where
  width : Nat
  height : Nat
  stride : Nat
  size : Nat
  format : PlatschFormat
  handle : Nat
  map : List Nat
  setmode : Bool
  mode : ModeInfo
  fb_id : Nat
  conn_id : Nat
  crtc_id : Nat
  deriving Repr, DecidableEq

/-- A modeset_dev as produced by calloc (libplatsch.c:537, platsch.c:534):
all integers zero, setmode false, format the NULL pointer stand-in. -/
def zeroDev : ModesetDev :=
  { width := 0, height := 0, stride := 0, size := 0, format := nullFormat,
    handle := 0, map := [], setmode := false, mode := ⟨0, 0, 0⟩,
    fb_id := 0, conn_id := 0, crtc_id := 0 }

/-- drmModeEncoder, restricted to the fields the program reads.
crtc_id 0 means no active CRTC. -/
structure Encoder where
  encoder_id : Nat
  crtc_id : Nat
  possible_crtcs : Nat
  deriving Repr, DecidableEq

/-- drmModeConnector, restricted to the fields the program reads.
encoder_id 0 means no active encoder; connection uses drmModeConnection
values; encoders lists the ids of possible encoders. -/
structure Connector where
  connector_id : Nat
  connector_type : Nat
  connector_type_id : Nat
  encoder_id : Nat
  connection : Nat
  modes : List ModeInfo
  encoders : List Nat
  deriving Repr, DecidableEq

/-- drmModeRes, restricted to the fields the program reads. -/
structure Res where
  crtcs : List Nat
  connectors : List Nat
  deriving Repr, DecidableEq

/-- The DRM device's object tables, backing drmModeGetEncoder and
drmModeGetConnector. -/
structure Device where
  encoders : List Encoder
  connectors : List Connector

/-- drmModeGetEncoder: lookup by id; none models a NULL return.  Finding by
encoder_id equality makes the source's assert(enc->encoder_id == id) hold by
construction whenever the lookup succeeds. -/
def getEncoder (d : Device) (id : Nat) : Option Encoder :=
  d.encoders.find? (fun e => e.encoder_id == id)

/-- drmModeGetConnector: lookup by id; none models a NULL return. -/
def getConnector (d : Device) (id : Nat) : Option Connector :=
  d.connectors.find? (fun c => c.connector_id == id)

/-- The in-use scan over the modeset list performed in both branches of
drmprepare_crtc (libplatsch.c:196 and 244, platsch.c:189 and 237). -/
def crtcInUse (list : List ModesetDev) (crtc : Nat) : Bool :=
  list.any (fun d => d.crtc_id == crtc)

/-- Result of a prepare-stage function: ok, an error return (negative errno),
or a failed assert() aborting the process. -/
inductive CResult (α : Type) where
  | ok (a : α) : CResult α
  | err (e : Int) : CResult α
  | abort : CResult α
  deriving Repr, DecidableEq

/-- Inner loop of the exhaustive search of drmprepare_crtc
(libplatsch.c:235-260, platsch.c:228-253): walk all global CRTCs with their
index j, skip those the encoder's possible_crtcs bitmask excludes and those
already claimed by a record in the list, return the first survivor. -/
def findCrtcForEnc (enc : Encoder) (list : List ModesetDev) :
    List Nat → Nat → Option Nat
  | [], _ => none
  | c :: rest, j =>
    if enc.possible_crtcs.testBit j && !(crtcInUse list c) then some c
    else findCrtcForEnc enc list rest (j + 1)

/-- Outer loop of the exhaustive search of drmprepare_crtc
(libplatsch.c:225-262, platsch.c:218-255): for every encoder id the connector
advertises, fetch the encoder (skipping failed lookups) and scan all CRTCs. -/
def searchCrtc (d : Device) (res : Res) (list : List ModesetDev) :
    List Nat → Option Nat
  | [] => none
  | eid :: rest =>
    match getEncoder d eid with
    | none => searchCrtc d res list rest
    | some enc =>
      match findCrtcForEnc enc list res.crtcs 0 with
      | some c => some c
      | none => searchCrtc d res list rest

/-- drmprepare_crtc (libplatsch.c:169-267, platsch.c:162-260).  If the
connector has an active encoder, fetch it (assert on lookup failure); if that
encoder has an active CRTC not claimed by a record in the list, reuse it.
Only when the connector has no active encoder is dev->setmode set to 1.  In
all other unsatisfied cases fall through to the exhaustive search; with no
suitable CRTC return -ENOENT. -/
def drmprepare_crtc (d : Device) (res : Res) (conn : Connector)
    (list : List ModesetDev) (dev : ModesetDev) : CResult ModesetDev :=
  if conn.encoder_id != 0 then
    match getEncoder d conn.encoder_id with
    | none => .abort
    | some enc =>
      if enc.crtc_id != 0 && !(crtcInUse list enc.crtc_id) then
        .ok { dev with crtc_id := enc.crtc_id }
      else
        match searchCrtc d res list conn.encoders with
        | some c => .ok { dev with crtc_id := c }
        | none => .err (-ENOENT)
  else
    let dev' := { dev with setmode := true }
    match searchCrtc d res list conn.encoders with
    | some c => .ok { dev' with crtc_id := c }
    | none => .err (-ENOENT)

/-- get_normalized_conn_type_name's normalization loop (libplatsch.c:353-357,
platsch.c:345-349): lowercase every character, then map '-' to '_'. -/
def normalizeConnTypeName (s : String) : String :=
  String.mk (s.data.map (fun c =>
    let c' := c.toLower
    if c' == '-' then '_' else c'))

/-- The env variable name built by asprintf("platsch_%s%u_mode", ...)
(libplatsch.c:389, platsch.c:381). -/
def mode_env_name (tname : String) (tid : Nat) : String :=
  "platsch_" ++ normalizeConnTypeName tname ++ toString tid ++ "_mode"

/-- platsch_format_find (libplatsch.c:362-371, platsch.c:354-363): first table
entry whose name strcmp-equals the argument (case-sensitive exact match). -/
def platsch_format_find (name : String) : Option PlatschFormat :=
  platsch_formats.find? (fun f => f.name == name)

/-- One %u conversion: skip leading whitespace, then one or more decimal
digits (modelled for the non-negative decimal inputs the program deals
with). -/
def scanU (cs : List Char) : Option (Nat × List Char) :=
  let cs' := cs.dropWhile Char.isWhitespace
  let ds := cs'.takeWhile Char.isDigit
  if ds.isEmpty then none
  else some (ds.foldl (fun n c => n * 10 + (c.toNat - 48)) 0, cs'.drop ds.length)

/-- sscanf(mode, "%ux%u@%s", &width, &height, fmt_specifier)
(libplatsch.c:404, platsch.c:396): returns the number of conversions
assigned together with width, height and the format specifier; unassigned
outputs keep their initial values (0, 0, ""). -/
def sscanf_mode (s : String) : Nat × Nat × Nat × String :=
  match scanU s.data with
  | none => (0, 0, 0, "")
  | some (w, cs) =>
    match cs with
    | 'x' :: cs' =>
      match scanU cs' with
      | none => (1, w, 0, "")
      | some (h, cs'') =>
        match cs'' with
        | '@' :: cs3 =>
          let cs4 := cs3.dropWhile Char.isWhitespace
          let tok := cs4.takeWhile (fun c => !c.isWhitespace)
          if tok.isEmpty then (2, w, h, "")
          else (3, w, h, String.mk tok)
        | _ => (2, w, h, "")
    | _ => (1, w, 0, "")

/-- Per-connector environment for modeset_create_fb: the responses of the
four fallible kernel interactions.  An error value carries the errno the
failing call sets. -/
structure CreateFbEnv where
  create_dumb : Except Int (Nat × Nat × Nat)
  addfb2 : Except Int Nat
  map_dumb : Except Int Nat
  mmapRes : Except Int Unit

/-- Kernel-side objects owned by the process: dumb-buffer handles and
framebuffer object ids currently alive. -/
structure Kernel where
  dumbs : List Nat
  fbs : List Nat
  deriving Repr, DecidableEq

/-- Environment of the preparation pass: getenv, the connector-type name
table behind drmModeGetConnectorTypeName, and the per-connector framebuffer
ioctl responses (keyed by connector id). -/
structure PrepEnv where
  getenv : String → Option String
  connTypeName : Nat → Option String
  fb : Nat → CreateFbEnv

/-- set_env_connector_mode (libplatsch.c:373-458, platsch.c:365-450).
Returns the updated dev or a negative errno, together with the list of
error() messages emitted.  The fallback path uses the connector's first
timing; the fallback_format path only resets the format, keeping an
override-matched timing. -/
def set_env_connector_mode (env : PrepEnv) (conn : Connector)
    (dev : ModesetDev) : Except Int ModesetDev × List String :=
  let fallbackFrom := fun (dev' : ModesetDev) (log : List String) =>
    (Except.ok { dev' with format := platsch_formats.headD nullFormat }, log)
  let fallback := fun (log : List String) =>
    let m := conn.modes.headD ⟨0, 0, 0⟩
    fallbackFrom { dev with mode := m, width := m.hdisplay, height := m.vdisplay } log
  match env.connTypeName conn.connector_type with
  | none => fallback ["could not look up name for connector type"]
  | some tname =>
    match env.getenv (mode_env_name tname conn.connector_type_id) with
    | none => fallback []
    | some s =>
      let (n, w, h, fmt) := sscanf_mode s
      if n < 2 then (Except.error (-EFAULT), ["error while scanning for mode"])
      else
        match conn.modes.find? (fun m => m.hdisplay == w && m.vdisplay == h) with
        | none => (Except.error (-ENOENT), ["no mode available matching"])
        | some m =>
          let dev' := { dev with mode := m, width := w, height := h }
          match platsch_format_find fmt with
          | some f => (Except.ok { dev' with format := f }, [])
          | none =>
            fallbackFrom dev'
              (if fmt.length != 0 then ["unknown format specifier " ++ fmt] else [])

/-- modeset_create_fb (libplatsch.c:269-338, platsch.c:262-330): create the
dumb buffer, register the framebuffer object, obtain the mmap offset, map
and zero-fill.  Failures after the dumb-buffer allocation unwind in reverse
order (drmModeRmFB from err_fb, DRM_IOCTL_MODE_DESTROY_DUMB from
err_destroy) before returning the error. -/
def modeset_create_fb (e : CreateFbEnv) (k : Kernel) (dev : ModesetDev) :
    Kernel × Except Int ModesetDev :=
  match e.create_dumb with
  | .error errno => (k, .error (-errno))
  | .ok (pitch, size, handle) =>
    let k1 : Kernel := { k with dumbs := handle :: k.dumbs }
    let dev1 := { dev with stride := pitch, size := size, handle := handle }
    match e.addfb2 with
    | .error errno =>
      ({ k1 with dumbs := k1.dumbs.erase handle }, .error (-errno))
    | .ok fbid =>
      let k2 : Kernel := { k1 with fbs := fbid :: k1.fbs }
      let dev2 := { dev1 with fb_id := fbid }
      match e.map_dumb with
      | .error errno =>
        ({ k2 with fbs := k2.fbs.erase fbid, dumbs := k2.dumbs.erase handle },
         .error (-errno))
      | .ok _offset =>
        match e.mmapRes with
        | .error errno =>
          ({ k2 with fbs := k2.fbs.erase fbid, dumbs := k2.dumbs.erase handle },
           .error (-errno))
        | .ok _ =>
          (k2, .ok { dev2 with map := List.replicate size 0 })

/-- drmprepare_connector (libplatsch.c:460-502, platsch.c:452-494): reject
unconnected connectors (-ENOENT) and connectors without modes (-EFAULT),
then run mode selection, CRTC allocation and framebuffer creation in
sequence, propagating the first failure. -/
def drmprepare_connector (d : Device) (env : PrepEnv) (res : Res)
    (list : List ModesetDev) (k : Kernel) (conn : Connector)
    (dev : ModesetDev) : Kernel × CResult ModesetDev :=
  if conn.connection != DRM_MODE_CONNECTED then (k, .err (-ENOENT))
  else if conn.modes.length == 0 then (k, .err (-EFAULT))
  else
    match (set_env_connector_mode env conn dev).1 with
    | .error r => (k, .err r)
    | .ok dev1 =>
      match drmprepare_crtc d res conn list dev1 with
      | .abort => (k, .abort)
      | .err r => (k, .err r)
      | .ok dev2 =>
        match modeset_create_fb (env.fb conn.connector_id) k dev2 with
        | (k', .error r) => (k', .err r)
        | (k', .ok dev3) => (k', .ok dev3)

/-- One iteration of the connector loop of drmprepare (libplatsch.c:523-562):
fetch the connector (skip on failure), calloc a dev with conn_id set, prepare
it; on failure free the dev and leave the list untouched; on success link it.
The libplatsch variant clears the next pointer of the first linked record
(root_node), so the Bool tracks whether no record has been linked yet.
none models an assert() abort. -/
def drmprepare_step (d : Device) (env : PrepEnv) (res : Res) (cid : Nat)
    (k : Kernel) (list : List ModesetDev) (root : Bool) :
    Option (Kernel × List ModesetDev × Bool) :=
  match getConnector d cid with
  | none => some (k, list, root)
  | some conn =>
    match drmprepare_connector d env res list k conn
        { zeroDev with conn_id := conn.connector_id } with
    | (_, .abort) => none
    | (k', .err _) => some (k', list, root)
    | (k', .ok dev) => some (k', dev :: (if root then [] else list), false)

/-- The connector loop of drmprepare over the remaining connector ids. -/
def drmprepare_loop (d : Device) (env : PrepEnv) (res : Res) :
    List Nat → Kernel → List ModesetDev → Bool →
    Option (Kernel × List ModesetDev)
  | [], k, list, _ => some (k, list)
  | cid :: rest, k, list, root =>
    match drmprepare_step d env res cid k list root with
    | none => none
    | some (k', list', root') => drmprepare_loop d env res rest k' list' root'

/-- drmprepare (libplatsch.c:504-567) from the point where
drmModeGetResources succeeded: iterate all connectors starting from the
context's current modeset list. -/
def drmprepare (d : Device) (env : PrepEnv) (res : Res) (k : Kernel)
    (init : List ModesetDev) : Option (Kernel × List ModesetDev) :=
  drmprepare_loop d env res res.connectors k init true

/-- readfull (libplatsch.c:88-106, platsch.c:77-95): loop reading into the
buffer at increasing offsets until count bytes were read, EOF (a zero-length
read) was hit, or a read failed (read errors do not arise for the pure byte
streams modelled here).  A read returns the next min(count, available) bytes
of the stream. -/
def readfull (stream buf : List Nat) (off count : Nat) : Nat × List Nat :=
  if hc : count = 0 then (0, buf)
  else
    if hl : (stream.take count).length = 0 then (0, buf)
    else
      let chunk := stream.take count
      let buf2 := buf.take off ++ chunk ++ buf.drop (off + chunk.length)
      let r := readfull (stream.drop chunk.length) buf2 (off + chunk.length)
        (count - chunk.length)
      (chunk.length + r.1, r.2)
termination_by count
decreasing_by
  simp only [List.length_take] at hl ⊢
  omega

/-- The filename asprintf'd by draw_buffer / platsch_draw_buffer:
"%s/%s-%ux%u-%s.bin" (libplatsch.c:121, platsch.c:126). -/
def draw_filename (dir base : String) (dev : ModesetDev) : String :=
  dir ++ "/" ++ base ++ "-" ++ toString dev.width ++ "x" ++
    toString dev.height ++ "-" ++ dev.format.name ++ ".bin"

/-- draw_buffer (platsch.c:115-158) and the body of platsch_draw_buffer
(libplatsch.c:108-151), which are the same code: open the raw image file
(the file system is an environment mapping filenames to byte streams,
none = open failure), readfull it into the mapping, log a short read or a
failed open; never fail the caller.  Returns the updated dev and the error()
messages emitted. -/
def draw_buffer (fs : String → Option (List Nat)) (dir base : String)
    (dev : ModesetDev) : ModesetDev × List String :=
  let filename := draw_filename dir base dev
  match fs filename with
  | none => (dev, ["Failed to open " ++ filename])
  | some content =>
    let r := readfull content dev.map 0 dev.size
    let log :=
      if r.1 < dev.size then
        ["Could only read " ++ toString r.1 ++ "/" ++ toString dev.size ++
          " bytes from " ++ filename]
      else []
    ({ dev with map := r.2 }, log)

/-- struct platsch_draw_buf (libplatsch.h:14-22). -/
structure PlatschDrawBuf where
  width : Nat
  height : Nat
  stride : Nat
  size : Nat
  format : Nat
  fb_id : Nat
  fb : List Nat
  deriving Repr, DecidableEq

/-- The platsch_draw_buf platsch_custom_draw_buffer builds from a record
(libplatsch.c:156-164). -/
def mkDrawBuf (m : ModesetDev) : PlatschDrawBuf :=
  { width := m.width, height := m.height, stride := m.stride, size := m.size,
    format := m.format.format, fb_id := m.fb_id, fb := m.map }

/-- A custom draw callback: receives the draw buf and the opaque priv value
and yields the pixel bytes it wrote through buf->fb. -/
def CustomDrawCb : Type := PlatschDrawBuf → Nat → List Nat

/-- struct platsch_ctx (libplatsch.c:79-86).  The callback field holds the
possibly-NULL function pointer registered by the caller. -/
structure PlatschCtx where
  modeset_list : List ModesetDev
  drmfd : Nat
  dir : String
  base : String
  custom_draw_buffer_cb : Option CustomDrawCb
  custom_draw_priv : Nat

/-- Observable interactions of a presentation pass. -/
inductive DrawEvent where
  | fileLoad (filename : String) : DrawEvent
  | customDraw (buf : PlatschDrawBuf) (priv : Nat) : DrawEvent
  | setCrtc (crtc fb conn : Nat) (ok : Bool) : DrawEvent
  | pageFlip (crtc fb : Nat) (ok : Bool) : DrawEvent
  deriving Repr, DecidableEq

/-- Whether an event is a built-in file-based pixel load. -/
def DrawEvent.isFileLoad : DrawEvent → Bool
  | .fileLoad _ => true
  | _ => false

/-- Extract a custom-draw invocation from an event. -/
def DrawEvent.customData : DrawEvent → Option (PlatschDrawBuf × Nat)
  | .customDraw b p => some (b, p)
  | _ => none

/-- Environment of a presentation pass: the pixel-data file system and the
outcomes of drmModeSetCrtc and drmModePageFlip, keyed by connector id. -/
structure DrawEnv where
  fs : String → Option (List Nat)
  setCrtcOk : Nat → Bool
  pageFlipOk : Nat → Bool

/-- platsch_custom_draw_buffer (libplatsch.c:153-167): build the draw buf
from the record and invoke the registered callback with it and the stored
priv value. -/
def platsch_custom_draw_buffer (ctx : PlatschCtx) (cb : CustomDrawCb)
    (m : ModesetDev) : ModesetDev × DrawEvent :=
  let buf := mkDrawBuf m
  ({ m with map := cb buf ctx.custom_draw_priv },
   .customDraw buf ctx.custom_draw_priv)

/-- The body of the platsch_draw loop for one record (libplatsch.c:576-602):
draw (custom callback if registered, else the built-in file loader), then
either a full mode-set — clearing setmode on success, leaving it on failure —
or a page flip. -/
def platsch_draw_step (ctx : PlatschCtx) (env : DrawEnv) (m : ModesetDev) :
    ModesetDev × List DrawEvent :=
  let drawn :=
    match ctx.custom_draw_buffer_cb with
    | some cb => platsch_custom_draw_buffer ctx cb m
    | none =>
      ((draw_buffer env.fs ctx.dir ctx.base m).1,
       .fileLoad (draw_filename ctx.dir ctx.base m))
  let m1 := drawn.1
  if m1.setmode then
    if env.setCrtcOk m1.conn_id then
      ({ m1 with setmode := false },
       [drawn.2, .setCrtc m1.crtc_id m1.fb_id m1.conn_id true])
    else
      (m1, [drawn.2, .setCrtc m1.crtc_id m1.fb_id m1.conn_id false])
  else
    (m1, [drawn.2, .pageFlip m1.crtc_id m1.fb_id (env.pageFlipOk m1.conn_id)])

/-- The iteration of platsch_draw over the modeset list. -/
def platsch_draw_go (ctx : PlatschCtx) (env : DrawEnv) :
    List ModesetDev → List ModesetDev × List DrawEvent
  | [] => ([], [])
  | m :: rest =>
    let s := platsch_draw_step ctx env m
    let r := platsch_draw_go ctx env rest
    (s.1 :: r.1, s.2 ++ r.2)

/-- platsch_draw (libplatsch.c:571-603). -/
def platsch_draw (ctx : PlatschCtx) (env : DrawEnv) :
    PlatschCtx × List DrawEvent :=
  let r := platsch_draw_go ctx env ctx.modeset_list
  ({ ctx with modeset_list := r.1 }, r.2)

/-- platsch_register_custom_draw_cb (libplatsch.c:605-613): a NULL ctx is a
no-op; otherwise store the callback and the priv value. -/
def platsch_register_custom_draw_cb (ctx : Option PlatschCtx)
    (cb : Option CustomDrawCb) (priv : Nat) : Option PlatschCtx :=
  match ctx with
  | none => none
  | some c =>
    some { c with custom_draw_buffer_cb := cb, custom_draw_priv := priv }

/-- The presentation loop of main in the standalone binary
(platsch.c:655-676): same draw-then-present structure as platsch_draw but
without the custom-callback hook, and — unlike libplatsch — without clearing
setmode after a successful drmModeSetCrtc. -/
def main_present_go (env : DrawEnv) (dir base : String) :
    List ModesetDev → List ModesetDev × List DrawEvent
  | [] => ([], [])
  | m :: rest =>
    let m1 := (draw_buffer env.fs dir base m).1
    let ev :=
      if m1.setmode then
        DrawEvent.setCrtc m1.crtc_id m1.fb_id m1.conn_id
          (env.setCrtcOk m1.conn_id)
      else
        DrawEvent.pageFlip m1.crtc_id m1.fb_id (env.pageFlipOk m1.conn_id)
    let r := main_present_go env dir base rest
    (m1 :: r.1, ev :: r.2)

/-- Environment of the device-probe loop of platsch_alloc_ctx: the result of
open() for candidate index i (none = failure) and whether the
DRM_IOCTL_MODE_GETRESOURCES ioctl on that candidate succeeds. -/
structure ProbeEnv where
  openRes : Nat → Option Nat
  ioctlOk : Nat → Bool

/-- The fields of platsch_ctx that platsch_alloc_ctx fills in
(libplatsch.c:633-695); drmfd keeps its calloc value 0 when no probe
succeeds. -/
structure AllocCtx where
  drmfd : Nat
  dir : String
  base : String
  deriving Repr, DecidableEq

/-- The probe loop of platsch_alloc_ctx (libplatsch.c:654-685), threading the
set of probe file descriptors currently open.  Outer none: err_out was taken
(an open() failed) and NULL is returned.  Inner option: the drmfd stored, or
none when the loop exhausted all candidates without storing one. -/
def probe_loop (env : ProbeEnv) :
    List Nat → List Nat → Option (Option Nat) × List Nat
  | [], opened => (some none, opened)
  | i :: rest, opened =>
    match env.openRes i with
    | none => (none, opened)
    | some fd =>
      let opened' := fd :: opened
      if env.ioctlOk i then (some (some fd), opened')
      else probe_loop env rest (opened'.erase fd)

/-- platsch_alloc_ctx (libplatsch.c:633-695): apply the documented defaults
for dir and base, probe 64 candidate devices, and return the context (NULL
only when an open() failed), together with the probe file descriptors left
open. -/
def platsch_alloc_ctx (env : ProbeEnv) (dir base : Option String) :
    Option AllocCtx × List Nat :=
  let dir' := dir.getD "/usr/share/platsch"
  let base' := base.getD "splash"
  match probe_loop env (List.range 64) [] with
  | (none, fds) => (none, fds)
  | (some found, fds) =>
    (some { drmfd := found.getD 0, dir := dir', base := base' }, fds)

/-- Process-visible DRM resources for the teardown model: display-master
status (with the outcome drmDropMaster would have), open file descriptors,
live kernel objects and live memory mappings. -/
structure DrmState where
  isMaster : Bool
  dropMasterOk : Bool
  openFds : List Nat
  fbs : List Nat
  dumbs : List Nat
  mappings : List Nat
  deriving Repr, DecidableEq

/-- drmIsMaster on the engine's single device. -/
def drmIsMaster (s : DrmState) (_fd : Nat) : Bool := s.isMaster

/-- drmDropMaster: releases mastership when it succeeds. -/
def drmDropMaster (s : DrmState) (_fd : Nat) : DrmState :=
  if s.dropMasterOk then { s with isMaster := false } else s

/-- platsch_destroy_ctx (libplatsch.c:702-721): drop master if currently
held, free every modeset_dev and the dir/base strings and the ctx itself —
heap frees with no DrmState effect.  The function never calls close,
munmap, drmModeRmFB or DRM_IOCTL_MODE_DESTROY_DUMB. -/
def platsch_destroy_ctx (s : DrmState) (ctx : PlatschCtx) : DrmState :=
  let s1 := if drmIsMaster s ctx.drmfd then drmDropMaster s ctx.drmfd else s
  s1

/-! Concrete fixtures used by witnesses and counterexamples. -/

/-- A CreateFbEnv in which all four kernel interactions succeed:
pitch 4, size 8, handle 1, framebuffer id 2, offset 0. -/
def allOkFbEnv : CreateFbEnv :=
  { create_dumb := .ok (4, 8, 1), addfb2 := .ok 2, map_dumb := .ok 0,
    mmapRes := .ok () }

/-- A CreateFbEnv in which drmModeAddFB2 fails with errno 12 (ENOMEM). -/
def badFbEnv : CreateFbEnv :=
  { create_dumb := .ok (4, 8, 1), addfb2 := .error 12, map_dumb := .ok 0,
    mmapRes := .ok () }

/-- A PrepEnv with no environment overrides, no connector-type names and
all-success framebuffer creation. -/
def plainPrepEnv : PrepEnv :=
  { getenv := fun _ => none, connTypeName := fun _ => none,
    fb := fun _ => allOkFbEnv }

/-- A connector with no active encoder, one 2x2 mode, possible encoder 5. -/
def conn1 : Connector :=
  { connector_id := 10, connector_type := 0, connector_type_id := 0,
    encoder_id := 0, connection := 1, modes := [⟨2, 2, 60⟩], encoders := [5] }

/-- Device for the C1 witness: one idle encoder and conn1. -/
def dev1Fix : Device := { encoders := [⟨5, 0, 1⟩], connectors := [conn1] }

/-- Resources for the C1 witness: one CRTC, one connector. -/
def res1Fix : Res := { crtcs := [3], connectors := [10] }

/-- The record the C1 witness run produces for conn1. -/
def outDev1 : ModesetDev :=
  { width := 2, height := 2, stride := 4, size := 8,
    format := ⟨DRM_FORMAT_RGB565, 16, "RGB565"⟩, handle := 1,
    map := List.replicate 8 0, setmode := true, mode := ⟨2, 2, 60⟩,
    fb_id := 2, conn_id := 10, crtc_id := 3 }

/-- A record of an earlier output in the batch that claimed CRTC 7. -/
def prevDev : ModesetDev := { zeroDev with conn_id := 29, crtc_id := 7 }

/-- Connector for the C2 counterexample: its active encoder is 5 (whose
active CRTC 7 is claimed by prevDev), and it advertises encoder 6. -/
def conn2 : Connector :=
  { connector_id := 30, connector_type := 0, connector_type_id := 0,
    encoder_id := 5, connection := 1, modes := [⟨2, 2, 60⟩], encoders := [6] }

/-- Device for the C2 counterexample: encoder 5 currently drives CRTC 7;
encoder 6 is idle and bitmask-compatible with CRTC index 1. -/
def dev2Fix : Device :=
  { encoders := [⟨5, 7, 0⟩, ⟨6, 0, 2⟩], connectors := [conn2] }

/-- Resources for the C2 counterexample: CRTCs 7 and 9. -/
def res2Fix : Res := { crtcs := [7, 9], connectors := [30] }

/-- Connector for the C6 witness: no active encoder, one mode. -/
def conn6 : Connector :=
  { connector_id := 30, connector_type := 0, connector_type_id := 0,
    encoder_id := 0, connection := 1, modes := [⟨2, 2, 60⟩], encoders := [5] }

/-- Device for the C6 witness. -/
def dev6Fix : Device := { encoders := [⟨5, 0, 1⟩], connectors := [conn6] }

/-- Resources for the C6 witness. -/
def res6Fix : Res := { crtcs := [3], connectors := [30] }

/-- PrepEnv for the C6 witness: framebuffer registration fails. -/
def badFbPrepEnv : PrepEnv :=
  { getenv := fun _ => none, connTypeName := fun _ => none,
    fb := fun _ => badFbEnv }

/-- Kernel state with one pre-existing dumb buffer and framebuffer. -/
def kern6 : Kernel := { dumbs := [5], fbs := [6] }

/-- Connector for the C7/C8 witnesses: HDMI-A-1 with one 800x600 mode
(C7) resp. one 1920x1080 mode (C8 uses conn8). -/
def conn7 : Connector :=
  { connector_id := 20, connector_type := 0, connector_type_id := 1,
    encoder_id := 0, connection := 1, modes := [⟨800, 600, 60⟩],
    encoders := [] }

/-- Device for the C7 witness. -/
def dev7Fix : Device := { encoders := [], connectors := [conn7] }

/-- PrepEnv for the C7 witness: the override asks for a 9999x9999 timing the
connector does not advertise. -/
def prepEnv7 : PrepEnv :=
  { getenv := fun nm =>
      if nm == "platsch_hdmi_a1_mode" then some "9999x9999" else none,
    connTypeName := fun _ => some "HDMI-A",
    fb := fun _ => allOkFbEnv }

/-- Connector for the C8 witness: HDMI-A-1 advertising 1920x1080. -/
def conn8 : Connector :=
  { connector_id := 21, connector_type := 0, connector_type_id := 1,
    encoder_id := 0, connection := 1, modes := [⟨1920, 1080, 60⟩],
    encoders := [] }

/-- PrepEnv for the C8 witness: the override carries an unknown format
suffix. -/
def prepEnv8 : PrepEnv :=
  { getenv := fun nm =>
      if nm == "platsch_hdmi_a1_mode" then some "1920x1080@BOGUS" else none,
    connTypeName := fun _ => some "HDMI-A",
    fb := fun _ => allOkFbEnv }

/-- Record for the C9 witness: a freshly created 4-byte zeroed mapping. -/
def dev9 : ModesetDev := { zeroDev with size := 4, map := [0, 0, 0, 0] }

/-- File system for the C9 witness: the record's image file holds only two
bytes. -/
def fs9 : String → Option (List Nat) :=
  fun nm => if nm == "d/b-0x0-.bin" then some [7, 9] else none

/-- DrawEnv for the C9 witness. -/
def drawEnv9 : DrawEnv :=
  { fs := fs9, setCrtcOk := fun _ => true, pageFlipOk := fun _ => true }

/-- Context for the C9 witness (no custom callback). -/
def ctx9 : PlatschCtx :=
  { modeset_list := [], drmfd := 0, dir := "d", base := "b",
    custom_draw_buffer_cb := none, custom_draw_priv := 0 }

/-- Record for the C5 counterexample: pending mode-set on CRTC 2. -/
def rec5 : ModesetDev :=
  { zeroDev with setmode := true, conn_id := 1, crtc_id := 2, fb_id := 3 }

/-- DrawEnv for the C5 counterexample: no image files, every drmModeSetCrtc
succeeds. -/
def drawEnv5 : DrawEnv :=
  { fs := fun _ => none, setCrtcOk := fun _ => true,
    pageFlipOk := fun _ => true }

/-- Callback for the C10 witness: writes the priv value as the single pixel
byte. -/
def cb10 : CustomDrawCb := fun _ p => [p]

/-- Record for the C10 witness. -/
def rec10 : ModesetDev :=
  { zeroDev with conn_id := 1, fb_id := 2, crtc_id := 3, size := 1, map := [0] }

/-- Context for the C10 witness: cb10 registered with priv 5. -/
def ctx10 : PlatschCtx :=
  { modeset_list := [rec10], drmfd := 0, dir := "d", base := "b",
    custom_draw_buffer_cb := some cb10, custom_draw_priv := 5 }

/-- Probe environment in which every open() succeeds and every resource
ioctl fails. -/
def probeEnvAllFail : ProbeEnv :=
  { openRes := fun i => some (i + 3), ioctlOk := fun _ => false }

/-- DRM state for the C4 counterexample: master held (drop would succeed),
fd 4 open, one framebuffer, one dumb buffer, one mapping. -/
def s4 : DrmState :=
  { isMaster := true, dropMasterOk := true, openFds := [4], fbs := [7],
    dumbs := [3], mappings := [9] }

/-- Context for the C4 counterexample: one record owning framebuffer 7,
buffer handle 3 and the mapping, on device fd 4. -/
def ctx4 : PlatschCtx :=
  { modeset_list := [{ zeroDev with fb_id := 7, handle := 3, conn_id := 1 }],
    drmfd := 4, dir := "d", base := "b", custom_draw_buffer_cb := none,
    custom_draw_priv := 0 }

/-! Helper lemmas. -/

/-- crtcInUse is false exactly when no record in the list claims the CRTC. -/
theorem crtcInUse_eq_false {list : List ModesetDev} {c : Nat} :
    crtcInUse list c = false ↔ ∀ m ∈ list, m.crtc_id ≠ c := by
  rw [crtcInUse, ← Bool.not_eq_true, List.any_eq_true]
  push_neg
  simp

/-- The CRTC returned by the inner search loop is not claimed in the list. -/
theorem findCrtcForEnc_not_inuse (enc : Encoder) (list : List ModesetDev) :
    ∀ (crtcs : List Nat) (j c : Nat),
      findCrtcForEnc enc list crtcs j = some c → crtcInUse list c = false := by
  intro crtcs
  induction crtcs with
  | nil => intro j c h; simp [findCrtcForEnc] at h
  | cons hd tl ih =>
    intro j c h
    simp only [findCrtcForEnc] at h
    split at h
    · rename_i hcond
      injection h with h1
      subst h1
      have h2 := (Bool.and_eq_true _ _).mp hcond
      simpa using h2.2
    · exact ih _ _ h

/-- The CRTC returned by the exhaustive search is not claimed in the list. -/
theorem searchCrtc_not_inuse (d : Device) (res : Res) (list : List ModesetDev) :
    ∀ (encs : List Nat) (c : Nat),
      searchCrtc d res list encs = some c → crtcInUse list c = false := by
  intro encs
  induction encs with
  | nil => intro c h; simp [searchCrtc] at h
  | cons e tl ih =>
    intro c h
    simp only [searchCrtc] at h
    cases hge : getEncoder d e with
    | none => simp only [hge] at h; exact ih _ h
    | some enc =>
      simp only [hge] at h
      cases hf : findCrtcForEnc enc list res.crtcs 0 with
      | none => simp only [hf] at h; exact ih _ h
      | some c2 =>
        simp only [hf, Option.some.injEq] at h
        subst h
        exact findCrtcForEnc_not_inuse enc list res.crtcs 0 c2 hf

/-- A CRTC assigned by drmprepare_crtc — in the reuse branch as in the
exhaustive-search branch — is not claimed by any record already in the
list. -/
theorem drmprepare_crtc_ok_not_inuse {d : Device} {res : Res}
    {conn : Connector} {list : List ModesetDev} {dev dev' : ModesetDev}
    (h : drmprepare_crtc d res conn list dev = .ok dev') :
    crtcInUse list dev'.crtc_id = false := by
  unfold drmprepare_crtc at h
  split at h
  · cases hge : getEncoder d conn.encoder_id with
    | none => simp [hge] at h
    | some enc =>
      simp only [hge] at h
      split at h
      · rename_i hcond
        injection h with h1
        subst h1
        have h2 := (Bool.and_eq_true _ _).mp hcond
        simpa using h2.2
      · cases hs : searchCrtc d res list conn.encoders with
        | none => simp [hs] at h
        | some c =>
          simp only [hs] at h
          injection h with h1
          subst h1
          simpa using searchCrtc_not_inuse d res list conn.encoders c hs
  · cases hs : searchCrtc d res list conn.encoders with
    | none => simp [hs] at h
    | some c =>
      simp only [hs] at h
      injection h with h1
      subst h1
      simpa using searchCrtc_not_inuse d res list conn.encoders c hs

/-- modeset_create_fb only fills buffer-related fields: crtc_id, setmode and
conn_id survive unchanged. -/
theorem modeset_create_fb_ok_fields {e : CreateFbEnv} {k k' : Kernel}
    {dev dev' : ModesetDev}
    (h : modeset_create_fb e k dev = (k', .ok dev')) :
    dev'.crtc_id = dev.crtc_id ∧ dev'.setmode = dev.setmode ∧
      dev'.conn_id = dev.conn_id := by
  unfold modeset_create_fb at h
  cases hcd : e.create_dumb with
  | error errno => rw [hcd] at h; simp at h
  | ok v =>
    obtain ⟨pitch, size, handle⟩ := v
    rw [hcd] at h
    cases hfb : e.addfb2 with
    | error errno => rw [hfb] at h; simp at h
    | ok fbid =>
      rw [hfb] at h
      cases hmd : e.map_dumb with
      | error errno => rw [hmd] at h; simp at h
      | ok off =>
        rw [hmd] at h
        cases hmm : e.mmapRes with
        | error errno => rw [hmm] at h; simp at h
        | ok u =>
          rw [hmm] at h
          simp only [Prod.mk.injEq] at h
          obtain ⟨-, h2⟩ := h
          injection h2 with h3
          subst h3
          simp

/-- A record successfully prepared by drmprepare_connector carries a CRTC
not claimed by any record already in the list. -/
theorem drmprepare_connector_ok_not_inuse {d : Device} {env : PrepEnv}
    {res : Res} {list : List ModesetDev} {k k' : Kernel} {conn : Connector}
    {dev dev' : ModesetDev}
    (h : drmprepare_connector d env res list k conn dev = (k', .ok dev')) :
    crtcInUse list dev'.crtc_id = false := by
  unfold drmprepare_connector at h
  split at h
  · simp at h
  split at h
  · simp at h
  cases hse : (set_env_connector_mode env conn dev).1 with
  | error r => simp [hse] at h
  | ok dev1 =>
    simp only [hse] at h
    cases hcr : drmprepare_crtc d res conn list dev1 with
    | abort => simp [hcr] at h
    | err r => simp [hcr] at h
    | ok dev2 =>
      simp only [hcr] at h
      have hni := drmprepare_crtc_ok_not_inuse hcr
      rcases hfb : modeset_create_fb (env.fb conn.connector_id) k dev2 with
        ⟨k2, r2⟩
      cases r2 with
      | error r3 => simp [hfb] at h
      | ok dev3 =>
        simp only [hfb, Prod.mk.injEq] at h
        obtain ⟨-, h2⟩ := h
        injection h2 with h3
        subst h3
        have hf := modeset_create_fb_ok_fields hfb
        rw [hf.1]
        exact hni

/-- One step of the connector loop preserves distinctness of the claimed
crtc_id values: a skipped connector leaves the list unchanged, a linked
record claims a CRTC no existing record holds (and the libplatsch root_node
link resets the list to a singleton). -/
theorem drmprepare_step_nodup {d : Device} {env : PrepEnv} {res : Res}
    {cid : Nat} {k : Kernel} {list : List ModesetDev} {root : Bool}
    {k1 : Kernel} {list1 : List ModesetDev} {root1 : Bool}
    (h : drmprepare_step d env res cid k list root = some (k1, list1, root1))
    (hnd : (list.map ModesetDev.crtc_id).Nodup) :
    (list1.map ModesetDev.crtc_id).Nodup := by
  unfold drmprepare_step at h
  cases hgc : getConnector d cid with
  | none =>
    rw [hgc] at h
    simp only [Option.some.injEq, Prod.mk.injEq] at h
    obtain ⟨-, h2, -⟩ := h
    subst h2
    exact hnd
  | some conn =>
    simp only [hgc] at h
    rcases hpc : drmprepare_connector d env res list k conn
        { zeroDev with conn_id := conn.connector_id } with ⟨k2, cres⟩
    simp only [hpc] at h
    cases cres with
    | abort => simp at h
    | err r =>
      simp only [Option.some.injEq, Prod.mk.injEq] at h
      obtain ⟨-, h2, -⟩ := h
      subst h2
      exact hnd
    | ok dev =>
      simp only [Option.some.injEq, Prod.mk.injEq] at h
      obtain ⟨-, h2, -⟩ := h
      subst h2
      cases root with
      | true => simp
      | false =>
        have hni := drmprepare_connector_ok_not_inuse hpc
        rw [crtcInUse_eq_false] at hni
        simp only [if_neg Bool.false_ne_true, List.map_cons, List.nodup_cons]
        refine ⟨?_, hnd⟩
        intro hcontra
        rw [List.mem_map] at hcontra
        obtain ⟨m, hm, hmc⟩ := hcontra
        exact hni m hm hmc

/-- The connector loop preserves distinctness of the claimed crtc_id
values. -/
theorem drmprepare_loop_nodup (d : Device) (env : PrepEnv) (res : Res) :
    ∀ (cids : List Nat) (k : Kernel) (list : List ModesetDev) (root : Bool)
      (k' : Kernel) (list' : List ModesetDev),
      drmprepare_loop d env res cids k list root = some (k', list') →
      (list.map ModesetDev.crtc_id).Nodup →
      (list'.map ModesetDev.crtc_id).Nodup := by
  intro cids
  induction cids with
  | nil =>
    intro k list root k' list' h hnd
    simp only [drmprepare_loop, Option.some.injEq, Prod.mk.injEq] at h
    obtain ⟨-, h2⟩ := h
    subst h2
    exact hnd
  | cons cid rest ih =>
    intro k list root k' list' h hnd
    simp only [drmprepare_loop] at h
    cases hst : drmprepare_step d env res cid k list root with
    | none => simp [hst] at h
    | some trip =>
      obtain ⟨k1, list1, root1⟩ := trip
      simp only [hst] at h
      exact ih k1 list1 root1 k' list' h (drmprepare_step_nodup hst hnd)

/-- C1: all crtc_id values in the list assembled by one preparation pass
(drmprepare, starting from the empty modeset list of a fresh context) are
pairwise distinct, because both the reuse branch and the exhaustive-search
branch of drmprepare_crtc skip CRTCs already claimed by a linked record. -/
theorem drmprepare_crtc_ids_nodup (d : Device) (env : PrepEnv) (res : Res)
    (k k' : Kernel) (list' : List ModesetDev)
    (h : drmprepare d env res k [] = some (k', list')) :
    (list'.map ModesetDev.crtc_id).Nodup :=
  drmprepare_loop_nodup d env res res.connectors k [] true k' list' h (by simp)

/-- Witness for C1: a full preparation pass over dev1Fix allocates CRTC 3
to the single connector and its crtc_id list is duplicate-free. -/
theorem drmprepare_crtc_ids_nodup_witness :
    (([outDev1].map ModesetDev.crtc_id).Nodup) :=
  drmprepare_crtc_ids_nodup dev1Fix plainPrepEnv res1Fix ⟨[], []⟩ ⟨[1], [2]⟩
    [outDev1] (by decide)

/-- Counterexample for C2: connector conn2's active encoder 5 drives CRTC 7,
which prevDev already claims, so the reuse branch fails; the exhaustive
search assigns CRTC 9, yet the record's setmode flag is still false —
the code sets it only in the no-active-encoder case. -/
theorem drmprepare_crtc_setmode_counterexample :
    drmprepare_crtc dev2Fix res2Fix conn2 [prevDev]
        { zeroDev with conn_id := 30 } =
      CResult.ok { zeroDev with conn_id := 30, crtc_id := 9 } ∧
    conn2.encoder_id = 5 ∧
    crtcInUse [prevDev] 7 = true ∧
    ({ zeroDev with conn_id := 30, crtc_id := 9 } : ModesetDev).setmode
      = false := by
  refine ⟨by decide, by decide, by decide, by decide⟩

/-- C2 as amended: when CRTC allocation succeeds starting from a record with
setmode false, the resulting needs_modeset flag is true exactly when the
connector had no active encoder; in the other two failed-reuse cases
(encoder without active CRTC, or its CRTC already claimed) the exhaustive
search assigns a CRTC while setmode stays false. -/
theorem drmprepare_crtc_setmode_iff_no_encoder (d : Device) (res : Res)
    (conn : Connector) (list : List ModesetDev) (dev dev' : ModesetDev)
    (h0 : dev.setmode = false)
    (h : drmprepare_crtc d res conn list dev = .ok dev') :
    dev'.setmode = (conn.encoder_id == 0) := by
  unfold drmprepare_crtc at h
  split at h
  · rename_i henc
    have he : (conn.encoder_id == 0) = false := by
      cases hb : conn.encoder_id == 0 with
      | false => rfl
      | true => rw [bne, hb] at henc; simp at henc
    rw [he]
    cases hge : getEncoder d conn.encoder_id with
    | none => simp [hge] at h
    | some enc =>
      simp only [hge] at h
      split at h
      · injection h with h1
        subst h1
        simpa using h0
      · cases hs : searchCrtc d res list conn.encoders with
        | none => simp [hs] at h
        | some c =>
          simp only [hs] at h
          injection h with h1
          subst h1
          simpa using h0
  · rename_i henc
    have he : (conn.encoder_id == 0) = true := by
      cases hb : conn.encoder_id == 0 with
      | true => rfl
      | false => rw [bne, hb] at henc; simp at henc
    rw [he]
    cases hs : searchCrtc d res list conn.encoders with
    | none => simp [hs] at h
    | some c =>
      simp only [hs] at h
      injection h with h1
      subst h1
      simp

/-- Witness for the amended C2: for conn1, which has no active encoder, the
allocated record comes back with setmode true. -/
theorem drmprepare_crtc_setmode_iff_no_encoder_witness :
    ({ zeroDev with conn_id := 10, setmode := true, crtc_id := 3 } :
        ModesetDev).setmode = (conn1.encoder_id == 0) :=
  drmprepare_crtc_setmode_iff_no_encoder dev1Fix res1Fix conn1 []
    { zeroDev with conn_id := 10 }
    { zeroDev with conn_id := 10, setmode := true, crtc_id := 3 }
    (by decide) (by decide)

/-- When every probe's open succeeds and every resource ioctl fails, the
probe loop closes each candidate immediately and exits with no device
found and no new descriptor left open. -/
theorem probe_loop_allfail (env : ProbeEnv) :
    ∀ (l : List Nat) (opened : List Nat),
      (∀ i ∈ l, (env.openRes i).isSome = true ∧ env.ioctlOk i = false) →
      probe_loop env l opened = (some none, opened) := by
  intro l
  induction l with
  | nil => intro opened _; rfl
  | cons i tl ih =>
    intro opened hall
    have hi := hall i (by simp)
    cases hop : env.openRes i with
    | none => rw [hop] at hi; simp at hi
    | some fd =>
      simp only [probe_loop, hop, hi.2, if_false, List.erase_cons_head]
      exact ih opened (fun j hj => hall j (by simp [hj]))

/-- Counterexample for C3: with all 64 opens succeeding and all 64 resource
ioctls failing, platsch_alloc_ctx does NOT fail — it returns a context whose
drmfd keeps its calloc value 0 (though indeed no probe descriptor stays
open). -/
theorem alloc_ctx_allfail_counterexample :
    platsch_alloc_ctx probeEnvAllFail none none =
      (some { drmfd := 0, dir := "/usr/share/platsch", base := "splash" },
       []) ∧
    (platsch_alloc_ctx probeEnvAllFail none none).1 ≠ none :=
  ⟨by decide, by decide⟩

/-- C3 as amended: when all 64 candidate probes fail the resource query,
every candidate descriptor is closed immediately and no device handle is
retained (the context's drmfd stays 0), but platsch_alloc_ctx still returns
the context rather than failing. -/
theorem alloc_ctx_allfail_returns_ctx (env : ProbeEnv)
    (dir base : Option String)
    (hall : ∀ i ∈ List.range 64,
      (env.openRes i).isSome = true ∧ env.ioctlOk i = false) :
    (platsch_alloc_ctx env dir base).2 = [] ∧
    ∃ c, (platsch_alloc_ctx env dir base).1 = some c ∧ c.drmfd = 0 := by
  have hp := probe_loop_allfail env (List.range 64) [] hall
  unfold platsch_alloc_ctx
  simp only [hp]
  exact ⟨trivial, _, rfl, rfl⟩

/-- Witness for the amended C3 at the concrete all-fail probe
environment. -/
theorem alloc_ctx_allfail_returns_ctx_witness :
    (platsch_alloc_ctx probeEnvAllFail none none).2 = [] ∧
    ∃ c, (platsch_alloc_ctx probeEnvAllFail none none).1 = some c ∧
      c.drmfd = 0 :=
  alloc_ctx_allfail_returns_ctx probeEnvAllFail none none (by decide)

/-- Counterexample for C4: destroying a context that holds master drops
master, but the open device fd, the framebuffer object, the dumb buffer and
the memory mapping all survive — nothing is closed, released or unmapped. -/
theorem destroy_ctx_counterexample :
    (platsch_destroy_ctx s4 ctx4).isMaster = false ∧
    (platsch_destroy_ctx s4 ctx4).openFds = [4] ∧
    (platsch_destroy_ctx s4 ctx4).fbs = [7] ∧
    (platsch_destroy_ctx s4 ctx4).dumbs = [3] ∧
    (platsch_destroy_ctx s4 ctx4).mappings = [9] :=
  ⟨rfl, rfl, rfl, rfl, rfl⟩

/-- C4 as amended: platsch_destroy_ctx drops display-master privilege iff
the device currently holds it (and the drop succeeds) and frees only host
memory: it neither unmaps any mapping, nor destroys any framebuffer or
dumb-buffer kernel object, nor closes the device handle. -/
theorem destroy_ctx_effect (s : DrmState) (ctx : PlatschCtx) :
    platsch_destroy_ctx s ctx
      = { s with isMaster := s.isMaster && !s.dropMasterOk } ∧
    (platsch_destroy_ctx s ctx).openFds = s.openFds ∧
    (platsch_destroy_ctx s ctx).fbs = s.fbs ∧
    (platsch_destroy_ctx s ctx).dumbs = s.dumbs ∧
    (platsch_destroy_ctx s ctx).mappings = s.mappings := by
  have h : platsch_destroy_ctx s ctx
      = { s with isMaster := s.isMaster && !s.dropMasterOk } := by
    obtain ⟨im, dm, fds, fbs, dumbs, maps⟩ := s
    cases im <;> cases dm <;>
      simp [platsch_destroy_ctx, drmIsMaster, drmDropMaster]
  refine ⟨h, ?_, ?_, ?_, ?_⟩ <;> rw [h]

/-- A failed modeset_create_fb leaves the kernel object state exactly as it
was: every error path unwinds what it had created. -/
theorem modeset_create_fb_error_kernel {e : CreateFbEnv} {k k' : Kernel}
    {dev : ModesetDev} {r : Int}
    (h : modeset_create_fb e k dev = (k', Except.error r)) : k' = k := by
  unfold modeset_create_fb at h
  cases hcd : e.create_dumb with
  | error errno =>
    simp only [hcd, Prod.mk.injEq] at h
    exact h.1.symm
  | ok v =>
    obtain ⟨pitch, size, handle⟩ := v
    simp only [hcd] at h
    cases hfb : e.addfb2 with
    | error errno =>
      simp only [hfb, Prod.mk.injEq] at h
      rw [← h.1]
      simp [List.erase_cons_head]
    | ok fbid =>
      simp only [hfb] at h
      cases hmd : e.map_dumb with
      | error errno =>
        simp only [hmd, Prod.mk.injEq] at h
        rw [← h.1]
        simp [List.erase_cons_head]
      | ok off =>
        simp only [hmd] at h
        cases hmm : e.mmapRes with
        | error errno =>
          simp only [hmm, Prod.mk.injEq] at h
          rw [← h.1]
          simp [List.erase_cons_head]
        | ok u => simp [hmm] at h

/-- Any failure of drmprepare_connector leaves the kernel object state
unchanged: the stages before framebuffer creation touch no kernel object
and a failed modeset_create_fb restores the state. -/
theorem drmprepare_connector_err_kernel {d : Device} {env : PrepEnv}
    {res : Res} {list : List ModesetDev} {k k' : Kernel} {conn : Connector}
    {dev : ModesetDev} {r : Int}
    (h : drmprepare_connector d env res list k conn dev
      = (k', CResult.err r)) : k' = k := by
  unfold drmprepare_connector at h
  split at h
  · simp only [Prod.mk.injEq] at h
    exact h.1.symm
  split at h
  · simp only [Prod.mk.injEq] at h
    exact h.1.symm
  cases hse : (set_env_connector_mode env conn dev).1 with
  | error r0 =>
    simp only [hse, Prod.mk.injEq] at h
    exact h.1.symm
  | ok dev1 =>
    simp only [hse] at h
    cases hcr : drmprepare_crtc d res conn list dev1 with
    | abort => simp [hcr] at h
    | err r1 =>
      simp only [hcr, Prod.mk.injEq] at h
      exact h.1.symm
    | ok dev2 =>
      simp only [hcr] at h
      rcases hfb : modeset_create_fb (env.fb conn.connector_id) k dev2 with
        ⟨k2, r2⟩
      cases r2 with
      | error r3 =>
        simp only [hfb, Prod.mk.injEq] at h
        rw [← h.1]
        exact modeset_create_fb_error_kernel hfb
      | ok dev3 => simp [hfb] at h

/-- C6: every failure of modeset_create_fb after the dumb buffer was
allocated unwinds in reverse order — the framebuffer object is deregistered
if it was registered and the dumb buffer destroyed — so the kernel object
state is exactly restored; and the connector whose preparation failed
contributes no record: the loop step leaves the list unchanged. -/
theorem modeset_create_fb_unwind (e : CreateFbEnv) (k : Kernel)
    (dev : ModesetDev) (k' : Kernel) (r : Int) (d : Device) (env : PrepEnv)
    (res : Res) (list : List ModesetDev) (k2 k2' : Kernel) (conn : Connector)
    (r2 : Int) (cid : Nat) (root : Bool)
    (h1 : modeset_create_fb e k dev = (k', Except.error r))
    (hc : getConnector d cid = some conn)
    (h2 : drmprepare_connector d env res list k2 conn
      { zeroDev with conn_id := conn.connector_id } = (k2', CResult.err r2)) :
    k' = k ∧ k2' = k2 ∧
    drmprepare_step d env res cid k2 list root = some (k2', list, root) := by
  refine ⟨modeset_create_fb_error_kernel h1,
    drmprepare_connector_err_kernel h2, ?_⟩
  unfold drmprepare_step
  simp only [hc, h2]

/-- Witness for C6: with drmModeAddFB2 failing (errno 12), creation starting
from kernel state kern6 returns to kern6 and connector 30 is skipped without
touching the list. -/
theorem modeset_create_fb_unwind_witness :
    kern6 = kern6 ∧ kern6 = kern6 ∧
    drmprepare_step dev6Fix badFbPrepEnv res6Fix 30 kern6 [] true
      = some (kern6, [], true) :=
  modeset_create_fb_unwind badFbEnv kern6 zeroDev kern6 (-12) dev6Fix
    badFbPrepEnv res6Fix [] kern6 kern6 conn6 (-12) 30 true rfl rfl rfl

/-- C7: an override whose parsed width/height match none of the connector's
advertised timings makes set_env_connector_mode fail with -ENOENT
(NoMatchingTiming), the loop step for that connector leaves the list (and
kernel state) unchanged, and the remaining connectors are processed exactly
as if the failing one were absent. -/
theorem set_env_no_matching_timing (env : PrepEnv) (conn : Connector)
    (dev : ModesetDev) (d : Device) (res : Res) (k : Kernel)
    (list : List ModesetDev) (root : Bool) (cid : Nat) (rest : List Nat)
    (tname s : String) (n w h : Nat) (f : String)
    (henv : env.connTypeName conn.connector_type = some tname)
    (hget : env.getenv (mode_env_name tname conn.connector_type_id) = some s)
    (hparse : sscanf_mode s = (n, w, h, f))
    (hn : 2 ≤ n)
    (hnomatch : conn.modes.find?
      (fun m => m.hdisplay == w && m.vdisplay == h) = none)
    (hconnect : conn.connection = DRM_MODE_CONNECTED)
    (hmodes : conn.modes.length ≠ 0)
    (hc : getConnector d cid = some conn) :
    (set_env_connector_mode env conn dev).1 = Except.error (-ENOENT) ∧
    drmprepare_step d env res cid k list root = some (k, list, root) ∧
    drmprepare_loop d env res (cid :: rest) k list root
      = drmprepare_loop d env res rest k list root := by
  have hnot : ¬ n < 2 := by omega
  have hp1 : ∀ dv : ModesetDev,
      (set_env_connector_mode env conn dv).1 = Except.error (-ENOENT) := by
    intro dv
    unfold set_env_connector_mode
    simp only [henv, hget, hparse, if_neg hnot, hnomatch]
  have hp2 : drmprepare_step d env res cid k list root
      = some (k, list, root) := by
    unfold drmprepare_step
    simp only [hc]
    have hcn : drmprepare_connector d env res list k conn
        { zeroDev with conn_id := conn.connector_id }
        = (k, CResult.err (-ENOENT)) := by
      unfold drmprepare_connector
      have hb1 : (conn.connection != DRM_MODE_CONNECTED) = false := by
        simp [hconnect]
      have hb2 : (conn.modes.length == 0) = false := by
        simpa using hmodes
      simp only [hb1, hb2, if_false, Bool.false_eq_true, hp1]
    simp only [hcn]
  refine ⟨hp1 dev, hp2, ?_⟩
  simp only [drmprepare_loop, hp2]

/-- Witness for C7: connector conn7 advertises only 800x600, the override
asks for 9999x9999; the output is skipped and the loop continues
unaffected. -/
theorem set_env_no_matching_timing_witness :
    (set_env_connector_mode prepEnv7 conn7 zeroDev).1
      = Except.error (-ENOENT) ∧
    drmprepare_step dev7Fix prepEnv7 ⟨[], [20]⟩ 20 ⟨[], []⟩ [] true
      = some (⟨[], []⟩, [], true) ∧
    drmprepare_loop dev7Fix prepEnv7 ⟨[], [20]⟩ (20 :: []) ⟨[], []⟩ [] true
      = drmprepare_loop dev7Fix prepEnv7 ⟨[], [20]⟩ [] ⟨[], []⟩ [] true :=
  set_env_no_matching_timing prepEnv7 conn7 zeroDev dev7Fix ⟨[], [20]⟩
    ⟨[], []⟩ [] true 20 [] "HDMI-A" "9999x9999" 2 9999 9999 ""
    (by decide) (by decide) (by decide) (by decide) (by decide) (by decide)
    (by decide) (by decide)

/-- C8: an override with a matching timing but an unknown, non-empty format
suffix does not drop the output: set_env_connector_mode logs the unknown
specifier, falls back to the default format — the first table entry, 16-bit
RGB565 — and returns success with the override's matched timing and
dimensions retained. -/
theorem set_env_unknown_format_fallback (env : PrepEnv) (conn : Connector)
    (dev : ModesetDev) (tname s : String) (w h : Nat) (f : String)
    (m : ModeInfo)
    (henv : env.connTypeName conn.connector_type = some tname)
    (hget : env.getenv (mode_env_name tname conn.connector_type_id) = some s)
    (hparse : sscanf_mode s = (3, w, h, f))
    (hf : f.length ≠ 0)
    (hfind : platsch_format_find f = none)
    (hmatch : conn.modes.find?
      (fun mo => mo.hdisplay == w && mo.vdisplay == h) = some m) :
    set_env_connector_mode env conn dev =
      (Except.ok { dev with
          mode := m, width := w, height := h,
          format := platsch_formats.headD nullFormat },
       ["unknown format specifier " ++ f]) ∧
    (platsch_formats.headD nullFormat).name = "RGB565" ∧
    (platsch_formats.headD nullFormat).bpp = 16 := by
  refine ⟨?_, rfl, rfl⟩
  have hnot : ¬ (3 : Nat) < 2 := by omega
  have hfb : (f.length != 0) = true := by simpa using hf
  unfold set_env_connector_mode
  simp only [henv, hget, hparse, if_neg hnot, hmatch, hfind, hfb, if_true]

/-- Witness for C8: override "1920x1080@BOGUS" on a connector advertising
1920x1080 keeps the 1920x1080 timing, warns about BOGUS and selects the
default RGB565 format. -/
theorem set_env_unknown_format_fallback_witness :
    set_env_connector_mode prepEnv8 conn8 zeroDev =
      (Except.ok { zeroDev with
          mode := ⟨1920, 1080, 60⟩, width := 1920, height := 1080,
          format := platsch_formats.headD nullFormat },
       ["unknown format specifier " ++ "BOGUS"]) ∧
    (platsch_formats.headD nullFormat).name = "RGB565" ∧
    (platsch_formats.headD nullFormat).bpp = 16 :=
  set_env_unknown_format_fallback prepEnv8 conn8 zeroDev "HDMI-A"
    "1920x1080@BOGUS" 1920 1080 "BOGUS" ⟨1920, 1080, 60⟩ (by decide)
    (by decide) (by decide) (by decide) (by decide) (by decide)

/-- draw_buffer only rewrites the pixel mapping: identification fields and
the setmode flag survive unchanged. -/
theorem draw_buffer_preserves (fs : String → Option (List Nat))
    (dir base : String) (m : ModesetDev) :
    (draw_buffer fs dir base m).1.conn_id = m.conn_id ∧
    (draw_buffer fs dir base m).1.setmode = m.setmode ∧
    (draw_buffer fs dir base m).1.crtc_id = m.crtc_id ∧
    (draw_buffer fs dir base m).1.fb_id = m.fb_id := by
  unfold draw_buffer
  cases hfs : fs (draw_filename dir base m) <;> simp [hfs]

/-- The flag outcome of one platsch_draw step: conn_id is preserved and
setmode is cleared exactly when it was set and the mode-set succeeded. -/
theorem platsch_draw_step_flags (ctx : PlatschCtx) (env : DrawEnv)
    (m : ModesetDev) :
    (platsch_draw_step ctx env m).1.conn_id = m.conn_id ∧
    (platsch_draw_step ctx env m).1.setmode
      = (m.setmode && !(env.setCrtcOk m.conn_id)) := by
  unfold platsch_draw_step
  cases hcb : ctx.custom_draw_buffer_cb with
  | some cb =>
    simp only [platsch_custom_draw_buffer]
    cases hsm : m.setmode <;> cases hok : env.setCrtcOk m.conn_id <;>
      simp [hsm, hok]
  | none =>
    have hpre := draw_buffer_preserves env.fs ctx.dir ctx.base m
    obtain ⟨h1, h2, -, -⟩ := hpre
    simp only []
    cases hsm : m.setmode <;> cases hok : env.setCrtcOk m.conn_id <;>
      simp [h1, h2, hsm, hok]

/-- The platsch_draw loop processes every record independently: the
resulting list is the elementwise image of the step function. -/
theorem platsch_draw_go_map (ctx : PlatschCtx) (env : DrawEnv) :
    ∀ l : List ModesetDev,
      (platsch_draw_go ctx env l).1
        = l.map (fun m => (platsch_draw_step ctx env m).1) := by
  intro l
  induction l with
  | nil => rfl
  | cons m tl ih => simp [platsch_draw_go, ih]

/-- Flag outcome of a whole platsch_draw pass. -/
theorem platsch_draw_go_flags (ctx : PlatschCtx) (env : DrawEnv) :
    ∀ l : List ModesetDev,
      ((platsch_draw_go ctx env l).1.map (fun m => (m.conn_id, m.setmode)))
        = l.map (fun m =>
            (m.conn_id, m.setmode && !(env.setCrtcOk m.conn_id))) := by
  intro l
  induction l with
  | nil => rfl
  | cons m tl ih =>
    have hs := platsch_draw_step_flags ctx env m
    simp [platsch_draw_go, hs.1, hs.2, ih]

/-- The standalone binary's presentation loop never changes any flag. -/
theorem main_present_go_flags (env : DrawEnv) (dir base : String) :
    ∀ l : List ModesetDev,
      ((main_present_go env dir base l).1.map
          (fun m => (m.conn_id, m.setmode)))
        = l.map (fun m => (m.conn_id, m.setmode)) := by
  intro l
  induction l with
  | nil => rfl
  | cons m tl ih =>
    have hp := draw_buffer_preserves env.fs dir base m
    simp [main_present_go, hp.1, hp.2.1, ih]

/-- Counterexample for C5: in the standalone platsch binary's presentation
loop, a record with a pending mode-set keeps setmode = true even though the
drmModeSetCrtc call succeeded (the setCrtc event carries ok = true) — the
claim that a successful mode-set clears needs_modeset fails there. -/
theorem main_loop_setmode_counterexample :
    main_present_go drawEnv5 "dir" "base" [rec5]
      = ([rec5], [DrawEvent.setCrtc 2 3 1 true]) ∧
    rec5.setmode = true ∧ drawEnv5.setCrtcOk rec5.conn_id = true :=
  ⟨by decide, by decide, by decide⟩

/-- C5 as amended: in the library's presentation pass (platsch_draw) every
record's needs_modeset ends up false unless it was set and the mode-set call
failed — a successful mode-set clears it, a failed one leaves it set; the
standalone binary's one-shot presentation loop instead leaves every record's
needs_modeset unchanged even after a successful mode-set. -/
theorem draw_setmode_cleared_iff_success (ctx : PlatschCtx) (env : DrawEnv)
    (dir base : String) (l : List ModesetDev) :
    ((platsch_draw ctx env).1.modeset_list.map
        (fun m => (m.conn_id, m.setmode)))
      = ctx.modeset_list.map
          (fun m => (m.conn_id, m.setmode && !(env.setCrtcOk m.conn_id))) ∧
    ((main_present_go env dir base l).1.map
        (fun m => (m.conn_id, m.setmode)))
      = l.map (fun m => (m.conn_id, m.setmode)) :=
  ⟨platsch_draw_go_flags ctx env ctx.modeset_list,
   main_present_go_flags env dir base l⟩

/-- readfull on a stream shorter than the requested count writes the whole
stream as a prefix of the buffer, leaves the tail untouched and returns the
number of bytes read. -/
theorem readfull_short (stream buf : List Nat)
    (h : stream.length < buf.length) :
    readfull stream buf 0 buf.length
      = (stream.length, stream ++ buf.drop stream.length) := by
  have hb : ¬ buf.length = 0 := by omega
  have htake : stream.take buf.length = stream :=
    List.take_of_length_le (le_of_lt h)
  rw [readfull, dif_neg hb]
  by_cases hs : stream = []
  · subst hs
    simp
  · have hlen : ¬ (stream.take buf.length).length = 0 := by
      rw [htake]
      simpa using hs
    rw [dif_neg hlen]
    simp only [htake, List.take_zero, List.nil_append, Nat.zero_add,
      List.drop_length]
    rw [readfull]
    have hc2 : ¬ (buf.length - stream.length) = 0 := by omega
    rw [dif_neg hc2]
    simp

/-- C9: when the pixel stream holds fewer than buffer_size bytes, the
built-in loader writes exactly the bytes read as a prefix of the mapping,
leaves the tail of the mapping at its prior value, logs the short read, and
the presentation pass still processes every record. -/
theorem draw_buffer_short_read (fs : String → Option (List Nat))
    (dir base : String) (dev : ModesetDev) (content : List Nat)
    (ctx : PlatschCtx) (env : DrawEnv) (l : List ModesetDev)
    (hfs : fs (draw_filename dir base dev) = some content)
    (hlen : content.length < dev.size)
    (hmap : dev.map.length = dev.size) :
    (draw_buffer fs dir base dev).1
      = { dev with map := content ++ dev.map.drop content.length } ∧
    (draw_buffer fs dir base dev).2
      = ["Could only read " ++ toString content.length ++ "/" ++
          toString dev.size ++ " bytes from " ++ draw_filename dir base dev] ∧
    (platsch_draw_go ctx env l).1
      = l.map (fun m => (platsch_draw_step ctx env m).1) := by
  have hrf : readfull content dev.map 0 dev.size
      = (content.length, content ++ dev.map.drop content.length) := by
    rw [← hmap]
    exact readfull_short content dev.map (by omega)
  refine ⟨?_, ?_, platsch_draw_go_map ctx env l⟩
  · unfold draw_buffer
    simp only [hfs, hrf]
  · unfold draw_buffer
    simp only [hfs, hrf, if_pos hlen]

/-- Witness for C9: a 2-byte stream into a fresh zeroed 4-byte mapping
yields [7, 9, 0, 0] and the short-read log. -/
theorem draw_buffer_short_read_witness :
    (draw_buffer fs9 "d" "b" dev9).1
      = { dev9 with map := [7, 9] ++ dev9.map.drop 2 } ∧
    (draw_buffer fs9 "d" "b" dev9).2
      = ["Could only read " ++ toString 2 ++ "/" ++ toString dev9.size ++
          " bytes from " ++ draw_filename "d" "b" dev9] ∧
    (platsch_draw_go ctx9 drawEnv9 []).1
      = ([] : List ModesetDev).map
          (fun m => (platsch_draw_step ctx9 drawEnv9 m).1) := by
  have h := draw_buffer_short_read fs9 "d" "b" dev9 [7, 9] ctx9 drawEnv9 []
    (by decide) (by decide) (by decide)
  exact h

/-- One platsch_draw step with a registered callback: the step invokes the
callback on the record's draw buf and priv value (the pixel mapping becomes
whatever the callback wrote), emits a customDraw event carrying that buf,
and performs no file load. -/
theorem platsch_draw_step_custom (ctx : PlatschCtx) (env : DrawEnv)
    (m : ModesetDev) (f : CustomDrawCb)
    (hcb : ctx.custom_draw_buffer_cb = some f) :
    (platsch_draw_step ctx env m).1.map
      = f (mkDrawBuf m) ctx.custom_draw_priv ∧
    (platsch_draw_step ctx env m).2.filter DrawEvent.isFileLoad = [] ∧
    (platsch_draw_step ctx env m).2.filterMap DrawEvent.customData
      = [(mkDrawBuf m, ctx.custom_draw_priv)] := by
  unfold platsch_draw_step platsch_custom_draw_buffer
  simp only [hcb]
  cases hsm : m.setmode <;> cases hok : env.setCrtcOk m.conn_id <;>
    simp [hsm, hok, DrawEvent.isFileLoad, DrawEvent.customData]

/-- A whole platsch_draw pass with a registered callback: no file loads, one
customDraw per record in order, and every mapping replaced by the callback's
output. -/
theorem platsch_draw_go_custom (ctx : PlatschCtx) (env : DrawEnv)
    (f : CustomDrawCb) (hcb : ctx.custom_draw_buffer_cb = some f) :
    ∀ l : List ModesetDev,
      (platsch_draw_go ctx env l).2.filter DrawEvent.isFileLoad = [] ∧
      (platsch_draw_go ctx env l).2.filterMap DrawEvent.customData
        = l.map (fun m => (mkDrawBuf m, ctx.custom_draw_priv)) ∧
      (platsch_draw_go ctx env l).1.map ModesetDev.map
        = l.map (fun m => f (mkDrawBuf m) ctx.custom_draw_priv) := by
  intro l
  induction l with
  | nil => exact ⟨rfl, rfl, rfl⟩
  | cons m tl ih =>
    have hs := platsch_draw_step_custom ctx env m f hcb
    simp [platsch_draw_go, List.filter_append, List.filterMap_append,
      hs.1, hs.2.1, hs.2.2, ih.1, ih.2.1, ih.2.2]

/-- C10: registering a custom draw callback on a NULL context is a no-op
returning NULL; on a real context it stores the callback and the opaque priv
value; and a presentation pass over a context with a registered callback
invokes the callback for every record — with the record's width, height,
stride, size, format, framebuffer id and mapped memory — instead of the
built-in file loader. -/
theorem custom_draw_registration (ctx c : PlatschCtx) (f : CustomDrawCb)
    (env : DrawEnv) (cb' : Option CustomDrawCb) (priv' : Nat)
    (h : ctx.custom_draw_buffer_cb = some f) :
    platsch_register_custom_draw_cb none cb' priv' = none ∧
    platsch_register_custom_draw_cb (some c) cb' priv'
      = some { c with
          custom_draw_buffer_cb := cb', custom_draw_priv := priv' } ∧
    (platsch_draw ctx env).2.filter DrawEvent.isFileLoad = [] ∧
    (platsch_draw ctx env).2.filterMap DrawEvent.customData
      = ctx.modeset_list.map (fun m => (mkDrawBuf m, ctx.custom_draw_priv)) ∧
    (platsch_draw ctx env).1.modeset_list.map ModesetDev.map
      = ctx.modeset_list.map
          (fun m => f (mkDrawBuf m) ctx.custom_draw_priv) := by
  have hg := platsch_draw_go_custom ctx env f h ctx.modeset_list
  exact ⟨rfl, rfl, hg.1, hg.2.1, hg.2.2⟩

/-- Witness for C10 on the concrete context ctx10 (callback cb10, priv 5)
and record rec10. -/
theorem custom_draw_registration_witness :
    platsch_register_custom_draw_cb none none 0 = none ∧
    platsch_register_custom_draw_cb (some ctx9) none 0
      = some { ctx9 with
          custom_draw_buffer_cb := none, custom_draw_priv := 0 } ∧
    (platsch_draw ctx10 drawEnv5).2.filter DrawEvent.isFileLoad = [] ∧
    (platsch_draw ctx10 drawEnv5).2.filterMap DrawEvent.customData
      = ctx10.modeset_list.map
          (fun m => (mkDrawBuf m, ctx10.custom_draw_priv)) ∧
    (platsch_draw ctx10 drawEnv5).1.modeset_list.map ModesetDev.map
      = ctx10.modeset_list.map
          (fun m => cb10 (mkDrawBuf m) ctx10.custom_draw_priv) :=
  custom_draw_registration ctx10 ctx9 cb10 drawEnv5 none 0 rfl

end Platsch
